import Mathlib

/-!
Shallow embedding of the blog image component and the content schema.

The image component renders an `<img>` inside an aspect-ratio container div.
When `shimmer` is false it renders the image synchronously; when `shimmer`
is true it renders a placeholder div until the client environment is
confirmed (a React effect sets `mounted`), then the image with an attached
load handler (which sets `loaded`).

The content schema is a zod object validating blog frontmatter records.
-/

namespace BlogImage

/-- The `aspectRatio` prop: one of the string literals "auto", "square", "video". -/
inductive AspectRatio where
  | auto
  | square
  | video
deriving DecidableEq, Repr

/-- The exported `Props` interface of the component. `imgClassName` models
`imgProps.className` (an optional class passed through to the img element). -/
structure Props where
  alt : String
  aspectRatio : AspectRatio := AspectRatio.auto
  shimmer : Bool := false
  src : String
  imgClassName : Option String := none
deriving DecidableEq, Repr

/-- `ImgProps`: the props of the inner `Img` helper. `hasHandleLoad` records
whether a `handleLoad` callback was supplied (the embedding keeps whether the
load handler is attached, not the closure itself). -/
structure ImgProps where
  alt : String
  className : Option String := none
  hasHandleLoad : Bool := false
  loaded : Bool := false
  shimmer : Bool := false
  src : String
deriving DecidableEq, Repr

/-- Rendered DOM tree: a div with a class string and children, or an img
element with alt, class string, whether an onLoad handler is attached, and src. -/
inductive Node where
  | div (className : String) (children : List Node)
  | img (alt : String) (className : String) (onLoadAttached : Bool) (src : String)

/-- Joins strings with single spaces between them. -/
def joinWithSpace : List String → String
  | [] => ""
  | [s] => s
  | s :: rest => s ++ " " ++ joinWithSpace rest

/-- The `clsx` collaborator: merges class fragments, dropping absent (`none`)
and falsy (empty-string) fragments, joining the rest with single spaces. -/
def clsx (args : List (Option String)) : String :=
  joinWithSpace ((args.filterMap id).filter (fun s => s ≠ ""))

/-- The shimmer pulse class fragment used by `Img`. -/
def pulseClasses : String := "bg-slate-100 dark:bg-slate-900 animate-pulse"

/-- The inner `Img` helper: renders the img element with classes
`clsx('h-full w-full', shimmer && !loaded && pulseClasses, className)`. -/
def Img (p : ImgProps) : Node :=
  Node.img p.alt
    (clsx [some "h-full w-full",
      if p.shimmer && !p.loaded then some pulseClasses else none,
      p.className])
    p.hasHandleLoad p.src

/-- The `classNameByAspectRatio` lookup object inside `ImgWrapper`. -/
def classNameByAspectRatio : AspectRatio → String
  | AspectRatio.auto => "aspect-auto"
  | AspectRatio.square => "aspect-square"
  | AspectRatio.video => "aspect-video"

/-- The `ImgWrapper` helper: a div whose class is the aspect-ratio class. -/
def ImgWrapper (aspectRatio : AspectRatio) (children : List Node) : Node :=
  Node.div (classNameByAspectRatio aspectRatio) children

/-- The `ImgPlaceholder` helper: a full-size pulsing div with no children. -/
def ImgPlaceholder : Node :=
  Node.div "h-full w-full bg-slate-100 dark:bg-slate-900 animate-pulse" []

/-- The two React state flags of one shimmer-path instance:
`loaded` from `useState(false)` and `mounted` from `useState(false)`. -/
structure RenderState where
  loaded : Bool := false
  mounted : Bool := false
deriving DecidableEq, Repr

/-- The default `Image` component as a function of its props and the current
state flags. The non-shimmer branch ignores the state entirely. In the shimmer
branch the inner `Img` receives `handleLoad` and `loaded` but no `shimmer`
prop, so `ImgProps.shimmer` keeps its default `false`. -/
def Image (p : Props) (st : RenderState) : Node :=
  if !p.shimmer then
    ImgWrapper p.aspectRatio
      [Img { alt := p.alt, className := p.imgClassName, src := p.src }]
  else
    ImgWrapper p.aspectRatio
      [if st.mounted then
          Img { alt := p.alt, className := p.imgClassName, hasHandleLoad := true,
                loaded := st.loaded, src := p.src }
        else ImgPlaceholder]

/-- The two asynchronous events of a shimmer instance: the mount effect
(`useEffect` calling `setMounted(true)`) and the image load event
(`handleLoad` calling `setLoaded(true)`). -/
inductive Event where
  | mountEffect
  | loadEvent
deriving DecidableEq, Repr

/-- Effect of an event on the state flags: each setter writes `true`. -/
def applyEvent (st : RenderState) : Event → RenderState
  | Event.mountEffect => { st with mounted := true }
  | Event.loadEvent => { st with loaded := true }

/-- The data of one rendered img element. -/
structure ImgEntry where
  alt : String
  className : String
  onLoadAttached : Bool
  src : String
deriving DecidableEq, Repr

mutual

/-- All img elements occurring in a rendered tree, in document order. -/
def Node.imgEntries : Node → List ImgEntry
  | Node.img a c h s => [⟨a, c, h, s⟩]
  | Node.div _ children => imgEntriesList children

/-- All img elements occurring in a list of trees. -/
def imgEntriesList : List Node → List ImgEntry
  | [] => []
  | x :: xs => Node.imgEntries x ++ imgEntriesList xs

end

mutual

/-- All nodes of a tree, the root included. -/
def Node.subnodes : Node → List Node
  | Node.img a c h s => [Node.img a c h s]
  | Node.div c children => Node.div c children :: subnodesList children

/-- All nodes of a list of trees. -/
def subnodesList : List Node → List Node
  | [] => []
  | x :: xs => Node.subnodes x ++ subnodesList xs

end

/-- Whether the render of `p` in state `st` contains an img element with an
attached load handler (the only way the load event can fire). -/
def loadHandlerAttached (p : Props) (st : RenderState) : Bool :=
  (Node.imgEntries (Image p st)).any ImgEntry.onLoadAttached

/-- The states one rendered instance can actually reach: it starts with both
flags false; the mount effect can always fire; the load event can fire only
while the current render has an img element with an attached load handler. -/
inductive Reachable (p : Props) : RenderState → Prop
  | init : Reachable p {}
  | mount {st : RenderState} : Reachable p st →
      Reachable p (applyEvent st Event.mountEffect)
  | load {st : RenderState} : Reachable p st →
      loadHandlerAttached p st = true →
      Reachable p (applyEvent st Event.loadEvent)

/-- Splits characters into space-separated tokens; `cur` holds the characters
of the current token in reverse. -/
def classListAux : List Char → List Char → List String
  | [], cur => if cur.isEmpty then [] else [String.mk cur.reverse]
  | c :: cs, cur =>
      if c = ' ' then
        (if cur.isEmpty then [] else [String.mk cur.reverse]) ++ classListAux cs []
      else classListAux cs (c :: cur)

/-- The individual classes of a class string (split on spaces). -/
def classList (s : String) : List String :=
  classListAux s.data []

end BlogImage

namespace ContentSchema

/-- A frontmatter field value as the zod validators distinguish it:
a string, a date, or some other shape (number, boolean, ...). -/
inductive JValue where
  | str (s : String)
  | date
  | num (n : Int)
  | bool (b : Bool)
deriving DecidableEq, Repr

/-- `z.string()`: accepts exactly strings. -/
def zString : JValue → Bool
  | JValue.str _ => true
  | _ => false

/-- `z.date()`: accepts exactly dates. -/
def zDate : JValue → Bool
  | JValue.date => true
  | _ => false

/-- `.or(...)`: accepts what either branch accepts. -/
def zOr (a b : JValue → Bool) (v : JValue) : Bool := a v || b v

/-- `.optional()` on an object field: an absent field passes, a present one
must satisfy the validator. -/
def zOptional (a : JValue → Bool) : Option JValue → Bool
  | none => true
  | some v => a v

/-- A required object field: an absent field fails, a present one must
satisfy the validator. -/
def zRequired (a : JValue → Bool) : Option JValue → Bool
  | none => false
  | some v => a v

/-- A blog frontmatter record, one optional slot per schema field. -/
structure Frontmatter where
  title : Option JValue := none
  description : Option JValue := none
  publishDate : Option JValue := none
  updateDate : Option JValue := none
  heroImage : Option JValue := none
deriving DecidableEq, Repr

/-- The `blog` collection schema from `src/content/config.ts`:
`z.object` with required string `title` and `description`, optional
string-or-date `publishDate` and `updateDate`, optional string `heroImage`. -/
def blogSchema (r : Frontmatter) : Bool :=
  zRequired zString r.title &&
  zRequired zString r.description &&
  zOptional (zOr zString zDate) r.publishDate &&
  zOptional (zOr zString zDate) r.updateDate &&
  zOptional zString r.heroImage

end ContentSchema

namespace BlogImage

/-- The render of `p` in state `st` has an img element with an attached load
handler exactly when `p` is on the shimmer path and the instance is mounted:
the non-shimmer branch never passes `handleLoad`, and the unmounted shimmer
branch renders only the placeholder div. -/
theorem loadHandlerAttached_eq (p : Props) (st : RenderState) :
    loadHandlerAttached p st = (p.shimmer && st.mounted) := by
  unfold loadHandlerAttached Image ImgWrapper Img ImgPlaceholder
  cases hp : p.shimmer <;> cases hm : st.mounted <;>
    simp [hp, hm, Node.imgEntries, imgEntriesList]

/-- In every reachable state of an instance, a loaded image implies a
confirmed (mounted) environment: the load handler fires only from a render
that attached it, and such a render requires `mounted = true`. -/
theorem mounted_of_loaded (p : Props) (st : RenderState)
    (hr : Reachable p st) (hl : st.loaded = true) : st.mounted = true := by
  induction hr with
  | init => simp at hl
  | mount hr ih => simp [applyEvent]
  | load hr ha ih =>
      have hm := loadHandlerAttached_eq _ _ ▸ ha
      simp only [Bool.and_eq_true] at hm
      simpa [applyEvent] using hm.2

/-- C1: code behavior at the failing input. With shimmer enabled, the
environment confirmed (`mounted = true`) and the image not yet loaded, the
rendered img element is present but its class string is exactly the base
"h-full w-full" sizing classes: the pulse classes are absent, because `Image`
never forwards the `shimmer` prop to the inner `Img`, whose `shimmer` field
stays at its default `false`, so the conditional pulse fragment is never
composed in. -/
theorem shimmer_loading_img_lacks_pulse :
    Node.imgEntries (Image { alt := "A cat", shimmer := true, src := "/cat.jpg" }
        { loaded := false, mounted := true }) =
      [⟨"A cat", "h-full w-full", true, "/cat.jpg"⟩] ∧
    "animate-pulse" ∉ classList "h-full w-full" ∧
    pulseClasses = "bg-slate-100 dark:bg-slate-900 animate-pulse" := by
  refine ⟨?_, by decide, rfl⟩
  simp [Image, ImgWrapper, Img, Node.imgEntries, imgEntriesList, clsx, joinWithSpace]

/-- C2: with shimmer enabled and the environment not yet confirmed
(`mounted = false`), the render is the aspect-ratio wrapper around the
placeholder div, which fills its parent (h-full, w-full) and pulses
(animate-pulse), and the tree contains no img element at all. -/
theorem shimmer_unmounted_placeholder_no_img (p : Props) (st : RenderState)
    (hs : p.shimmer = true) (hm : st.mounted = false) :
    Image p st = ImgWrapper p.aspectRatio [ImgPlaceholder] ∧
    Node.imgEntries (Image p st) = [] ∧
    ImgPlaceholder =
      Node.div "h-full w-full bg-slate-100 dark:bg-slate-900 animate-pulse" [] ∧
    "h-full" ∈ classList "h-full w-full bg-slate-100 dark:bg-slate-900 animate-pulse" ∧
    "w-full" ∈ classList "h-full w-full bg-slate-100 dark:bg-slate-900 animate-pulse" ∧
    "animate-pulse" ∈
      classList "h-full w-full bg-slate-100 dark:bg-slate-900 animate-pulse" := by
  refine ⟨?_, ?_, rfl, by decide, by decide, by decide⟩ <;>
    simp [Image, hs, hm, ImgWrapper, ImgPlaceholder, Node.imgEntries, imgEntriesList]

/-- C2 witness at a concrete request and the initial state. -/
theorem shimmer_unmounted_placeholder_no_img_witness :
    Node.imgEntries (Image { alt := "A cat", shimmer := true, src := "/cat.jpg" } {}) = [] :=
  (shimmer_unmounted_placeholder_no_img
    { alt := "A cat", shimmer := true, src := "/cat.jpg" } {} rfl rfl).2.1

/-- C3: with shimmer disabled, every render (the first one included, in any
state) is the aspect-ratio wrapper around exactly one img element, and the
placeholder node occurs nowhere in the tree. -/
theorem no_shimmer_first_render_img (p : Props) (st : RenderState)
    (hs : p.shimmer = false) :
    Image p st = ImgWrapper p.aspectRatio
      [Img { alt := p.alt, className := p.imgClassName, src := p.src }] ∧
    (Node.imgEntries (Image p st)).length = 1 ∧
    ImgPlaceholder ∉ Node.subnodes (Image p st) := by
  refine ⟨?_, ?_, ?_⟩ <;>
    simp [Image, hs, ImgWrapper, Img, ImgPlaceholder, Node.imgEntries,
      imgEntriesList, Node.subnodes, subnodesList]

/-- C3 witness at a concrete request. -/
theorem no_shimmer_first_render_img_witness :
    (Node.imgEntries (Image { alt := "A cat", src := "/cat.jpg" }
      { loaded := false, mounted := false })).length = 1 :=
  (no_shimmer_first_render_img { alt := "A cat", src := "/cat.jpg" }
    { loaded := false, mounted := false } rfl).2.1

/-- C4: the aspect-ratio mode to container-class map is one-to-one on the
three modes — auto maps to aspect-auto, square to aspect-square, video to
aspect-video, no two modes share a class — and every render's outer container
carries exactly the class of its mode. -/
theorem aspect_class_one_to_one :
    classNameByAspectRatio AspectRatio.auto = "aspect-auto" ∧
    classNameByAspectRatio AspectRatio.square = "aspect-square" ∧
    classNameByAspectRatio AspectRatio.video = "aspect-video" ∧
    classNameByAspectRatio AspectRatio.auto ≠ classNameByAspectRatio AspectRatio.square ∧
    classNameByAspectRatio AspectRatio.auto ≠ classNameByAspectRatio AspectRatio.video ∧
    classNameByAspectRatio AspectRatio.square ≠ classNameByAspectRatio AspectRatio.video ∧
    ∀ (p : Props) (st : RenderState), ∃ children,
      Image p st = Node.div (classNameByAspectRatio p.aspectRatio) children := by
  refine ⟨rfl, rfl, rfl, by decide, by decide, by decide, fun p st => ?_⟩
  unfold Image ImgWrapper
  split <;> exact ⟨_, rfl⟩

/-- C5: with shimmer enabled, in any reachable state where the image has
signaled load completion, the img element is rendered with class string
`clsx` of just the base fill-parent classes and the caller-supplied class;
with no caller-supplied class the class string is exactly "h-full w-full",
which does not include the pulse class. -/
theorem shimmer_loaded_no_pulse (p : Props) (st : RenderState)
    (hs : p.shimmer = true) (hr : Reachable p st) (hl : st.loaded = true) :
    Node.imgEntries (Image p st) =
      [⟨p.alt, clsx [some "h-full w-full", p.imgClassName], true, p.src⟩] ∧
    (p.imgClassName = none →
      Node.imgEntries (Image p st) = [⟨p.alt, "h-full w-full", true, p.src⟩] ∧
      "animate-pulse" ∉ classList "h-full w-full") := by
  have hm : st.mounted = true := mounted_of_loaded p st hr hl
  have hbase : Node.imgEntries (Image p st) =
      [⟨p.alt, clsx [some "h-full w-full", p.imgClassName], true, p.src⟩] := by
    simp [Image, hs, hm, ImgWrapper, Img, Node.imgEntries, imgEntriesList, clsx]
  refine ⟨hbase, fun hc => ⟨?_, by decide⟩⟩
  rw [hbase, hc]
  simp [clsx, joinWithSpace]

/-- C5 witness: a concrete shimmer request driven through mount and load. -/
theorem shimmer_loaded_no_pulse_witness :
    Node.imgEntries (Image { alt := "A cat", shimmer := true, src := "/cat.jpg" }
        { loaded := true, mounted := true }) =
      [⟨"A cat", clsx [some "h-full w-full", none], true, "/cat.jpg"⟩] :=
  (shimmer_loaded_no_pulse { alt := "A cat", shimmer := true, src := "/cat.jpg" }
    { loaded := true, mounted := true } rfl
    (Reachable.load (Reachable.mount Reachable.init) (by decide)) rfl).1

/-- C6: each state flag is monotone under every event — once true it stays
true, it is never reset — and firing the load event from the fully loaded
state (CONFIRMED_LOADED) leaves the state unchanged. -/
theorem state_flags_monotone_idempotent (st : RenderState) (e : Event) :
    (st.mounted = true → (applyEvent st e).mounted = true) ∧
    (st.loaded = true → (applyEvent st e).loaded = true) ∧
    (st.loaded = true → st.mounted = true →
      applyEvent st Event.loadEvent = st) := by
  obtain ⟨l, m⟩ := st
  refine ⟨?_, ?_, fun h1 h2 => ?_⟩ <;> cases e <;>
    simp_all [applyEvent]

/-- C6 witness: a second load event from CONFIRMED_LOADED is a no-op. -/
theorem state_flags_monotone_idempotent_witness :
    applyEvent { loaded := true, mounted := true } Event.loadEvent =
      { loaded := true, mounted := true } :=
  (state_flags_monotone_idempotent { loaded := true, mounted := true }
    Event.loadEvent).2.2 rfl rfl

/-- C7: with shimmer disabled the render reads no state: two renders of the
same request are identical whatever the state flags, so equal inputs give
identical output. -/
theorem no_shimmer_stateless (p : Props) (st1 st2 : RenderState)
    (hs : p.shimmer = false) : Image p st1 = Image p st2 := by
  simp [Image, hs]

/-- C7 witness at a concrete request and two different states. -/
theorem no_shimmer_stateless_witness :
    Image { alt := "", src := "" } { loaded := false, mounted := false } =
    Image { alt := "", src := "" } { loaded := true, mounted := true } :=
  no_shimmer_stateless { alt := "", src := "" } { loaded := false, mounted := false }
    { loaded := true, mounted := true } rfl

/-- C8: for every alt and src string, the empty string included, rendering
always succeeds (the render function is total) and every img element in the
output carries exactly the given alt and src, unchanged and unvalidated; on
the non-shimmer path that img element is always present. -/
theorem attrs_passed_through_unvalidated (p : Props) (st : RenderState) :
    (∀ e ∈ Node.imgEntries (Image p st), e.alt = p.alt ∧ e.src = p.src) ∧
    (p.shimmer = false →
      (Node.imgEntries (Image p st)).map (fun e => (e.alt, e.src)) =
        [(p.alt, p.src)]) := by
  constructor
  · intro e he
    cases hp : p.shimmer <;> cases hm : st.mounted <;>
      simp [Image, hp, hm, ImgWrapper, Img, ImgPlaceholder, Node.imgEntries,
        imgEntriesList] at he <;>
      simp [he]
  · intro hs
    simp [Image, hs, ImgWrapper, Img, Node.imgEntries, imgEntriesList]

/-- C8 witness: empty alt and src pass through unchanged. -/
theorem attrs_passed_through_unvalidated_witness :
    (Node.imgEntries (Image { alt := "", src := "" } {})).map
      (fun e => (e.alt, e.src)) = [("", "")] :=
  (attrs_passed_through_unvalidated { alt := "", src := "" } {}).2 rfl

/-- C10: the load handler is attached exactly when the shimmer path is
mounted, so in every reachable state `loaded = true` implies `mounted = true`:
the UNCONFIRMED_LOADED combination is unreachable. -/
theorem load_requires_mounted (p : Props) (st : RenderState) :
    loadHandlerAttached p st = (p.shimmer && st.mounted) ∧
    (Reachable p st → st.loaded = true → st.mounted = true) :=
  ⟨loadHandlerAttached_eq p st, fun hr hl => mounted_of_loaded p st hr hl⟩

/-- C10 witness: the concrete mount-then-load run reaches a mounted state. -/
theorem load_requires_mounted_witness :
    ({ loaded := true, mounted := true } : RenderState).mounted = true :=
  (load_requires_mounted { alt := "A cat", shimmer := true, src := "/cat.jpg" }
      { loaded := true, mounted := true }).2
    (Reachable.load (Reachable.mount Reachable.init) (by decide)) rfl

end BlogImage

namespace ContentSchema

/-- A required string field passes exactly on a present string value. -/
theorem zRequired_zString_iff (o : Option JValue) :
    zRequired zString o = true ↔ ∃ s, o = some (JValue.str s) := by
  cases o with
  | none => simp [zRequired]
  | some v => cases v <;> simp [zRequired, zString]

/-- An optional string-or-date field passes exactly on an absent value, a
string, or a date. -/
theorem zOptional_strOrDate_iff (o : Option JValue) :
    zOptional (zOr zString zDate) o = true ↔
      o = none ∨ (∃ s, o = some (JValue.str s)) ∨ o = some JValue.date := by
  cases o with
  | none => simp [zOptional]
  | some v => cases v <;> simp [zOptional, zOr, zString, zDate]

/-- An optional string field passes exactly on an absent value or a string. -/
theorem zOptional_zString_iff (o : Option JValue) :
    zOptional zString o = true ↔ o = none ∨ ∃ s, o = some (JValue.str s) := by
  cases o with
  | none => simp [zOptional]
  | some v => cases v <;> simp [zOptional, zString]

/-- C9: the blog schema accepts exactly the records with a string title and a
string description, optional string-or-date publish and update dates, and an
optional string hero image; it rejects every record whose title or
description is absent or not a string. -/
theorem blogSchema_accepts_exactly (r : Frontmatter) :
    (blogSchema r = true ↔
      ((∃ s, r.title = some (JValue.str s)) ∧
       (∃ s, r.description = some (JValue.str s)) ∧
       (r.publishDate = none ∨ (∃ s, r.publishDate = some (JValue.str s)) ∨
         r.publishDate = some JValue.date) ∧
       (r.updateDate = none ∨ (∃ s, r.updateDate = some (JValue.str s)) ∨
         r.updateDate = some JValue.date) ∧
       (r.heroImage = none ∨ ∃ s, r.heroImage = some (JValue.str s)))) ∧
    (r.title = none → blogSchema r = false) ∧
    (r.description = none → blogSchema r = false) ∧
    (∀ v, zString v = false → r.title = some v → blogSchema r = false) ∧
    (∀ v, zString v = false → r.description = some v → blogSchema r = false) := by
  have hiff : blogSchema r = true ↔
      ((∃ s, r.title = some (JValue.str s)) ∧
       (∃ s, r.description = some (JValue.str s)) ∧
       (r.publishDate = none ∨ (∃ s, r.publishDate = some (JValue.str s)) ∨
         r.publishDate = some JValue.date) ∧
       (r.updateDate = none ∨ (∃ s, r.updateDate = some (JValue.str s)) ∨
         r.updateDate = some JValue.date) ∧
       (r.heroImage = none ∨ ∃ s, r.heroImage = some (JValue.str s))) := by
    unfold blogSchema
    simp only [Bool.and_eq_true]
    rw [zRequired_zString_iff, zRequired_zString_iff, zOptional_strOrDate_iff,
      zOptional_strOrDate_iff, zOptional_zString_iff]
    tauto
  refine ⟨hiff, ?_, ?_, ?_, ?_⟩
  · intro h
    rw [Bool.eq_false_iff]
    intro htrue
    obtain ⟨⟨s, hs⟩, -⟩ := hiff.mp htrue
    rw [h] at hs
    exact Option.noConfusion hs
  · intro h
    rw [Bool.eq_false_iff]
    intro htrue
    obtain ⟨-, ⟨s, hs⟩, -⟩ := hiff.mp htrue
    rw [h] at hs
    exact Option.noConfusion hs
  · intro v hv h
    rw [Bool.eq_false_iff]
    intro htrue
    obtain ⟨⟨s, hs⟩, -⟩ := hiff.mp htrue
    rw [h] at hs
    obtain rfl := Option.some.inj hs
    simp [zString] at hv
  · intro v hv h
    rw [Bool.eq_false_iff]
    intro htrue
    obtain ⟨-, ⟨s, hs⟩, -⟩ := hiff.mp htrue
    rw [h] at hs
    obtain rfl := Option.some.inj hs
    simp [zString] at hv

/-- C9 witness: a record with string title and description is accepted, and
one missing the title is rejected. -/
theorem blogSchema_accepts_exactly_witness :
    blogSchema { title := some (JValue.str "T"),
                 description := some (JValue.str "D") } = true ∧
    blogSchema { description := some (JValue.str "D") } = false :=
  ⟨(blogSchema_accepts_exactly _).1.mpr
      ⟨⟨"T", rfl⟩, ⟨"D", rfl⟩, Or.inl rfl, Or.inl rfl, Or.inl rfl⟩,
    (blogSchema_accepts_exactly _).2.1 rfl⟩

end ContentSchema
